import Mathlib

set_option autoImplicit false

namespace TraceClean

/-!
Shallow embedding of the Enhanced-TRACE cleaning pipeline of
tidyfinance.py (process_trace_data, lines 1331-1571, and the column set of
download_data_wrds_trace_enhanced, lines 1313-1326).

Tables are lists of messages.  The embedding follows what the pandas code
does when run, not the algorithm its comments describe.  Two layers:

Row level: the status slices (query) are filters, and the one merge whose
key labels are unique in both frames, the post-cutover cancellation
anti-join of lines 1358-1368, is a filter on non-existence of a key match.

Error level: most of the remaining steps raise.  Several merges join on a
label that a preceding rename has duplicated (trace frames carry both
msg_seq_nb and orig_msg_seq_nb, so renaming one onto the other leaves the
target label twice, and pandas rejects a duplicated merge-key label
whatever the rows): the reversal merge of line 1379, the pre-cutover
cancellation merge of lines 1402-1415 and every iteration of the
correction loop of lines 1428-1464 raise ValueError.  The reversal
sequencing of lines 1476-1508 raises KeyError on the missing seq column
whenever the reversal or the retained non-reversal subset is empty.  The
agency union of line 1538 calls pd.concat through .pipe with a DataFrame
as objs and raises TypeError unconditionally.  Fallible steps therefore
return Except over the PdError type below, and the full call
(processTraceDataE) always errors at the first of these points, line 1379.

Dates are ISO dates read as the number YYYYMMDD (a strictly monotone
encoding, so every date comparison of the source is preserved); where the
code subtracts dates, the encoding is first converted to a day count
(dayNumber).  Times are seconds.
-/

/-- Date cell of the trd_rpt_dt column: either a raw textual date as delivered
by the upstream feed, or a parsed datetime value.  Models the dtype change
performed by pd.to_datetime at line 1347. -/
inductive DateCell where
  | raw (s : String)
  | dt (n : Nat)
deriving DecidableEq

/-- Numeric reading of an ISO date string: keep the digits, so "2012-02-06"
is read as 20120206.  Strictly monotone in calendar order, hence the
cutover comparison of the source is preserved. -/
def parseDate (s : String) : Nat :=
  (s.toList.filter Char.isDigit).foldl (fun a c => 10 * a + (c.toNat - 48)) 0

/-- Conversion applied by pd.to_datetime: raw strings are parsed, already
parsed values are unchanged. -/
def toDatetimeCell : DateCell → DateCell
  | .raw s => .dt (parseDate s)
  | .dt n => .dt n

/-- One TRACE message, with the eighteen columns process_trace_data touches.
Nullable columns are Options. -/
structure Msg where
  cusip_id : String
  msg_seq_nb : Nat
  orig_msg_seq_nb : Option Nat
  trd_exctn_dt : Nat
  trd_exctn_tm : Nat
  trd_rpt_dt : DateCell
  trd_rpt_tm : Nat
  entrd_vol_qt : Int
  rptd_pr : Int
  yld_pt : Option Int
  rpt_side_cd : String
  cntra_mp_id : String
  trc_st : String
  asof_cd : Option String
  stlmnt_dt : Option Nat
  days_to_sttl_ct : Option Int
  wis_fl : Option String
  spcl_trd_fl : Option String
deriving DecidableEq

/-- Report date of a message as a number (after datetime conversion the cell
always holds a parsed value; a raw cell is read through parseDate, exactly
what the conversion would store). -/
def rptDtNat (m : Msg) : Nat :=
  match m.trd_rpt_dt with
  | .raw s => parseDate s
  | .dt n => n

/-- Conversion of one row performed by line 1347 on the input table. -/
def convertRow (m : Msg) : Msg := { m with trd_rpt_dt := toDatetimeCell m.trd_rpt_dt }

/-- State of the caller's table after process_trace_data returns: line 1347
assigns the to_datetime conversion of the trd_rpt_dt column back into the
input frame, in place, before any of the later failures. -/
def mutatedInput (t : List Msg) : List Msg := t.map convertRow

/-- Cutover date 2012-02-06 of the enhanced TRACE regime switch. -/
def cutoverDate : Nat := 20120206

/-- Report date on or after the cutover. -/
def isPost (m : Msg) : Bool := decide (cutoverDate ≤ rptDtNat m)

/-- Report date strictly before the cutover. -/
def isPre (m : Msg) : Bool := decide (rptDtNat m < cutoverDate)

/-- Post-cutover trades and corrections (trc_st in T, R; lines 1348-1351). -/
def tracePostTR (t : List Msg) : List Msg :=
  t.filter (fun m => (decide (m.trc_st = "T") || decide (m.trc_st = "R")) && isPost m)

/-- Post-cutover cancellations and correction cancellations (trc_st in X, C;
lines 1353-1356). -/
def tracePostXC (t : List Msg) : List Msg :=
  t.filter (fun m => (decide (m.trc_st = "X") || decide (m.trc_st = "C")) && isPost m)

/-- Economic identity key: the eight merge columns of lines 1360-1362. -/
structure EconKey where
  cusip_id : String
  msg_seq_nb : Nat
  entrd_vol_qt : Int
  rptd_pr : Int
  rpt_side_cd : String
  cntra_mp_id : String
  trd_exctn_dt : Nat
  trd_exctn_tm : Nat
deriving DecidableEq

/-- Economic identity key of a message for the post-cutover joins, where the
message's own msg_seq_nb is used. -/
def keconPost (m : Msg) : EconKey :=
  { cusip_id := m.cusip_id, msg_seq_nb := m.msg_seq_nb, entrd_vol_qt := m.entrd_vol_qt,
    rptd_pr := m.rptd_pr, rpt_side_cd := m.rpt_side_cd, cntra_mp_id := m.cntra_mp_id,
    trd_exctn_dt := m.trd_exctn_dt, trd_exctn_tm := m.trd_exctn_tm }

/-- Post-cutover trades after the cancellation anti-join (lines 1358-1368).
This merge joins on eight columns that are unique labels in both frames (no
rename precedes it), so it is the one join of the pipeline that executes:
an anti-join keeping the rows with no matching cancel key. -/
def tracePostTRclean (t : List Msg) : List Msg :=
  (tracePostTR t).filter
    (fun m => !((tracePostXC t).any (fun x => decide (keconPost x = keconPost m))))

/-- Reversal flag: asof_cd = R (line 1478). -/
def isRev (m : Msg) : Bool := decide (m.asof_cd = some "R")

/-- Messages kept on the left side of the reversal anti-join: asof_cd missing
or not in R, X, D (line 1492). -/
def keepNonRev (m : Msg) : Bool :=
  match m.asof_cd with
  | none => true
  | some s => decide (s ≠ "R" ∧ s ≠ "X" ∧ s ≠ "D")

/-- Group key of the reversal sequencing (lines 1479-1480 and 1493-1494). -/
def kGrp (m : Msg) : String × Nat × Int × Int × String × String :=
  (m.cusip_id, m.trd_exctn_dt, m.entrd_vol_qt, m.rptd_pr, m.rpt_side_cd, m.cntra_mp_id)

/-- Within-group ordering of the reversal sequencing: sort_values by
trd_exctn_tm, trd_rpt_dt, trd_rpt_tm (lines 1481-1482). -/
def seqLe (a b : Msg) : Bool :=
  decide (a.trd_exctn_tm < b.trd_exctn_tm) ||
    (decide (a.trd_exctn_tm = b.trd_exctn_tm) &&
      (decide (rptDtNat a < rptDtNat b) ||
        (decide (rptDtNat a = rptDtNat b) && decide (a.trd_rpt_tm ≤ b.trd_rpt_tm))))

/-- Insertion of one message into a sorted list. -/
def insertLe (le : Msg → Msg → Bool) (m : Msg) : List Msg → List Msg
  | [] => [m]
  | x :: xs => if le m x then m :: x :: xs else x :: insertLe le m xs

/-- Insertion sort by the given comparison. -/
def sortLe (le : Msg → Msg → Bool) : List Msg → List Msg
  | [] => []
  | x :: xs => insertLe le x (sortLe le xs)

/-- Pairing of a list with positions i, i+1, ... . -/
def withSeqFrom (i : Nat) : List Msg → List (Msg × Nat)
  | [] => []
  | x :: xs => (x, i) :: withSeqFrom (i + 1) xs

/-- Sequence numbers 1..n (assign(seq=range(1, len(x) + 1)), line 1484). -/
def withSeq (l : List Msg) : List (Msg × Nat) := withSeqFrom 1 l

/-- Groupby on kGrp followed by the per-group sort and sequence assignment
(lines 1479-1487 and 1493-1500): for every distinct group key, the group's
messages sorted by seqLe and numbered from 1.  Defined on the nonempty
frames the groupby-apply actually visits; the empty-frame degeneracy is
handled by reversalStepE below. -/
def groupSeq (l : List Msg) : List (Msg × Nat) :=
  ((l.map kGrp).dedup).flatMap
    (fun k => withSeq (sortLe seqLe (l.filter (fun m => decide (kGrp m = k)))))

/-- Reversal messages of the active set with their group sequence numbers
(lines 1476-1487). -/
def revSeq (t : List Msg) : List (Msg × Nat) := groupSeq (t.filter isRev)

/-- Non-reversal messages of the active set with their group sequence numbers
(lines 1490-1500). -/
def nonRevSeq (t : List Msg) : List (Msg × Nat) := groupSeq (t.filter keepNonRev)

/-- Reversal removal (lines 1490-1508) in the mode where both subsets are
nonempty: anti-join of the sequenced non-reversal messages against the
sequenced reversal messages on the group key and the sequence number, then
drop the sequence column.  The anti-join is modeled row-wise; the suffixed
all-NaN copies of right-hand columns that the merge appends to surviving
rows and the drop leaves behind are not tracked. -/
def reversalStep (t : List Msg) : List Msg :=
  ((nonRevSeq t).filter
      (fun p =>
        !((revSeq t).any (fun q => decide (kGrp q.1 = kGrp p.1) && decide (q.2 = p.2))))).map
    (fun p => p.1)

/-- Day number of a date carried as YYYYMMDD digits: days since 1970-01-01 in
the proleptic Gregorian calendar, the unit underlying pandas datetime
subtraction (standard civil-from-days correspondence). -/
def dayNumber (ymd : Nat) : Int :=
  let y : Int := (ymd : Int) / 10000
  let mo : Int := (ymd : Int) / 100 % 100
  let d : Int := (ymd : Int) % 100
  let yy := if mo ≤ 2 then y - 1 else y
  let era := (if 0 ≤ yy then yy else yy - 399) / 400
  let yoe := yy - era * 400
  let mp := (mo + 9) % 12
  let doy := (153 * mp + 2) / 5 + d - 1
  let doe := yoe * 365 + yoe / 4 - yoe / 100 + doy
  era * 146097 + doe - 719468

/-- Settlement lag as a difference of dates in days (undefined when stlmnt_dt
is missing): the quantity the specification calls settlement_lag_2. -/
def settlementLagDays (m : Msg) : Option Int :=
  m.stlmnt_dt.map (fun sd => dayNumber sd - dayNumber m.trd_exctn_dt)

/-- Settlement filter predicate of lines 1549-1556 as executed.
days_to_sttl_ct is a reported number and its astype(float) comparison to 7
is a plain numeric test.  The second query compares
days_to_sttl_ct2 = stlmnt_dt - trd_exctn_dt (line 1545) after
astype(float): casting a timedelta64 to float counts NANOSECONDS, so the
test is the day lag times 86400000000000 at most 7 -- no positive day lag
ever passes, only a zero or negative one.  wis_fl must equal N; spcl_trd_fl
and asof_cd must be missing or empty. -/
def settleRetain (m : Msg) : Bool :=
  (match m.days_to_sttl_ct with
   | none => true
   | some d => decide (d ≤ 7)) &&
  (match m.stlmnt_dt with
   | none => true
   | some sd => decide ((dayNumber sd - dayNumber m.trd_exctn_dt) * 86400000000000 ≤ 7)) &&
  decide (m.wis_fl = some "N") &&
  (match m.spcl_trd_fl with
   | none => true
   | some s => decide (s = "")) &&
  (match m.asof_cd with
   | none => true
   | some s => decide (s = ""))

/-- Settlement filter over a table. -/
def settlementFilter (l : List Msg) : List Msg := l.filter settleRetain

/-- Columns process_trace_data reads from its argument, in order of first
access: the to_datetime assignment of line 1347 reads trd_rpt_dt first,
then the queries and merges read the status, key and payload columns, the
reversal sort reads trd_rpt_tm, the settlement filter reads stlmnt_dt,
days_to_sttl_ct, wis_fl and spcl_trd_fl, and the final projection reads
yld_pt.  This is also the full column set every slice of trace_all
carries. -/
def requiredColumns : List String :=
  ["trd_rpt_dt", "trc_st", "cusip_id", "msg_seq_nb", "entrd_vol_qt", "rptd_pr",
   "rpt_side_cd", "cntra_mp_id", "trd_exctn_dt", "trd_exctn_tm", "orig_msg_seq_nb",
   "asof_cd", "trd_rpt_tm", "stlmnt_dt", "days_to_sttl_ct", "wis_fl", "spcl_trd_fl",
   "yld_pt"]

/-- Columns of the cleaned output table (lines 1563-1565). -/
def outputColumns : List String :=
  ["cusip_id", "trd_exctn_dt", "trd_exctn_tm", "rptd_pr", "entrd_vol_qt", "yld_pt",
   "rpt_side_cd", "cntra_mp_id"]

/-- Columns selected by the SQL query of download_data_wrds_trace_enhanced
(lines 1314-1315). -/
def queryColumns : List String :=
  ["cusip_id", "trd_exctn_dt", "trd_exctn_tm", "rptd_pr", "entrd_vol_qt", "yld_pt",
   "rpt_side_cd", "cntra_mp_id", "trc_st", "asof_cd"]

/-- First column process_trace_data reads that a table with the given columns
does not have. -/
def firstMissingColumn (cols : List String) : Option String :=
  requiredColumns.find? (fun c => !(cols.contains c))

/-- Column-level behaviour of process_trace_data: accessing a missing column
raises (a KeyError in pandas), modelled as an error naming the first missing
column; with all required columns present every column access succeeds and
the projection of lines 1563-1565 names the output columns.  The ok branch
records the column accesses only: on a full-schema table the call still
fails later, at the line-1379 merge (processTraceDataE below), so no input
ever yields a cleaned table. -/
def processTraceSchema (cols : List String) : Except String (List String) :=
  match firstMissingColumn cols with
  | some c => .error c
  | none => .ok outputColumns

/-- Errors the pandas pipeline raises: a merge-key label that is not unique
(ValueError), a column accessed or joined on by a name the frame lacks
(KeyError), and the concat misuse (TypeError). -/
inductive PdError where
  | valueError (label : String)
  | keyError (label : String)
  | typeError (msg : String)
deriving DecidableEq

/-- Column labels after a pandas rename: every occurrence of the old label
becomes the new one.  Pandas does not force the result to stay unique, and
a merge whose key label occurs more than once in a frame raises ValueError
regardless of the rows. -/
def renameCols (old new : String) (cols : List String) : List String :=
  cols.map (fun c => if c = old then new else c)

/-- Pre-cutover cancellation removal, lines 1402-1415, as executed.  The
merge joins on msg_seq_nb, but the line-1406 rename turns trace_pre_C's
orig_msg_seq_nb into a second msg_seq_nb column (trace_pre_C is a slice of
trace_all and carries the full schema, requiredColumns), so pandas raises
ValueError on the duplicated key label before looking at any row, an empty
cancel slice included; no anti-join is performed. -/
def preCancelE (_t : List Msg) : Except PdError (List Msg) :=
  Except.error (PdError.valueError "msg_seq_nb")

/-- Correction loop of lines 1428-1472 as executed.  With no pending
corrections the while condition is zero and the body never runs, leaving
the active set untouched.  With any pending correction the first body merge
(lines 1430-1436) joins on orig_msg_seq_nb against trace_pre_T renamed by
msg_seq_nb to orig_msg_seq_nb; the frame already carries orig_msg_seq_nb,
so the renamed frame holds that label twice and pandas raises ValueError at
once.  No iteration ever completes, and neither the no-progress escape of
lines 1466-1472 nor the orphan discard is reached. -/
def correctionLoopE (act pend : List Msg) : Except PdError (List Msg × List Msg) :=
  if pend.isEmpty then Except.ok (act, pend)
  else Except.error (PdError.valueError "orig_msg_seq_nb")

/-- Reversal removal of lines 1476-1508 as executed.  The groupby-apply of
lines 1479-1487 and 1493-1500 creates the seq column only when it visits at
least one group: when the active set holds no reversal-flagged row, or no
retained non-reversal row, the corresponding frame comes out without seq
and the merge of lines 1501-1505 raises KeyError on the missing key.  With
both subsets nonempty the sequencing and the anti-join execute
(reversalStep). -/
def reversalStepE (t : List Msg) : Except PdError (List Msg) :=
  if (t.filter isRev).isEmpty || (t.filter keepNonRev).isEmpty then
    Except.error (PdError.keyError "seq")
  else Except.ok (reversalStep t)

/-- Agency resolution of lines 1510-1542 as executed: line 1538 pipes the
customer-marked slice into pd.concat with [sells, buys_filtered] as the
next positional argument, so pd.concat receives a DataFrame as objs and
raises TypeError in every pandas version; the three-way union is never
formed, whatever the rows. -/
def agencyStepE (_l : List Msg) : Except PdError (List Msg) :=
  Except.error (PdError.typeError "cannot concatenate object of type DataFrame")

/-- Outcome of process_trace_data on a table carrying the full message schema
(requiredColumns): line 1347 converts trd_rpt_dt in place (mutatedInput),
the post-cutover status slices and the cancellation anti-join of lines
1348-1368 execute (tracePostTRclean), and the reversal merge of line 1379
then raises ValueError: the line-1381 rename turns trace_post_Y's
orig_msg_seq_nb into a second msg_seq_nb column, and pandas rejects the
duplicated merge-key label whatever the rows, an empty reversal slice
included.  Nothing after line 1379 executes, so the call never returns a
cleaned table.  On a table missing required columns the earlier column
accesses raise instead (processTraceSchema). -/
def processTraceDataE (_t0 : List Msg) : Except PdError (List Msg) :=
  Except.error (PdError.valueError "msg_seq_nb")

/-- Base message for concrete scenarios: a plain pre-cutover customer trade. -/
def baseMsg : Msg :=
  { cusip_id := "037833AA1", msg_seq_nb := 1, orig_msg_seq_nb := none,
    trd_exctn_dt := 20120103, trd_exctn_tm := 36000,
    trd_rpt_dt := .dt 20120103, trd_rpt_tm := 36000,
    entrd_vol_qt := 100000, rptd_pr := 995, yld_pt := none,
    rpt_side_cd := "S", cntra_mp_id := "C", trc_st := "T", asof_cd := none,
    stlmnt_dt := none, days_to_sttl_ct := none, wis_fl := some "N",
    spcl_trd_fl := none }

/-- Pre-cutover trade of the concrete chain scenario (message sequence 1). -/
def t1ex : Msg := baseMsg

/-- Correction of t1ex: message sequence 2, references sequence 1, price 990. -/
def w1ex : Msg :=
  { baseMsg with trc_st := "W", msg_seq_nb := 2, orig_msg_seq_nb := some 1, rptd_pr := 990 }

/-- Correction of w1ex: message sequence 3, references sequence 2, price 1000. -/
def w2ex : Msg :=
  { baseMsg with trc_st := "W", msg_seq_nb := 3, orig_msg_seq_nb := some 2, rptd_pr := 1000 }

/-- Orphaned correction: references message sequence 99, which never exists. -/
def wOrphEx : Msg :=
  { baseMsg with trc_st := "W", msg_seq_nb := 2, orig_msg_seq_nb := some 99 }

/-- Pre-cutover cancel of baseMsg: trc_st C, back-reference to sequence 1. -/
def preCancelEx : Msg :=
  { baseMsg with trc_st := "C", msg_seq_nb := 7, orig_msg_seq_nb := some 1 }

/-- Post-cutover trade for the branch-completeness witness. -/
def postTradeEx : Msg := { baseMsg with trd_rpt_dt := .dt 20120210 }

/-- Post-cutover cancel with a different msg_seq_nb than postTradeEx. -/
def xPostEx : Msg :=
  { baseMsg with trc_st := "X", trd_rpt_dt := .dt 20120210, msg_seq_nb := 50 }

/-- Reversal-flagged message in baseMsg's group. -/
def revEx : Msg := { baseMsg with asof_cd := some "R", msg_seq_nb := 5 }

/-- Second non-reversal message of baseMsg's group, executed later. -/
def m2ex : Msg := { baseMsg with trd_exctn_tm := 37000, msg_seq_nb := 6 }

/-- Message whose trd_rpt_dt is still the raw feed text. -/
def rawMsgEx : Msg := { baseMsg with trd_rpt_dt := .raw "2012-01-03" }

/-- Row at the settlement boundary: reported settlement lag 8. -/
def sttl8Ex : Msg := { baseMsg with days_to_sttl_ct := some 8 }

/-- Row at the settlement boundary: reported settlement lag 7. -/
def sttl7Ex : Msg := { baseMsg with days_to_sttl_ct := some 7 }

/-- Row settled two calendar days after execution, across a month boundary. -/
def lag2Ex : Msg :=
  { baseMsg with trd_exctn_dt := 20120131, stlmnt_dt := some 20120202 }

/-- Agency sell leg of the round-trip scenario. -/
def agSellEx : Msg := { baseMsg with cntra_mp_id := "D", rpt_side_cd := "S", msg_seq_nb := 10 }

/-- Agency buy leg of the round-trip scenario, same key as agSellEx. -/
def agBuyEx : Msg := { baseMsg with cntra_mp_id := "D", rpt_side_cd := "B", msg_seq_nb := 11 }

/-- Membership in an insertion. -/
theorem mem_insertLe {le : Msg → Msg → Bool} {m x : Msg} {l : List Msg} :
    x ∈ insertLe le m l ↔ x = m ∨ x ∈ l := by
  induction l with
  | nil => simp [insertLe]
  | cons a l ih =>
    by_cases h : le m a = true
    · simp [insertLe, h]
    · simp [insertLe, h, ih]
      tauto

/-- Insertion grows the length by one. -/
theorem length_insertLe (le : Msg → Msg → Bool) (m : Msg) (l : List Msg) :
    (insertLe le m l).length = l.length + 1 := by
  induction l with
  | nil => rfl
  | cons a l ih =>
    by_cases h : le m a = true
    · simp [insertLe, h]
    · simp [insertLe, h, ih]

/-- Sorting preserves membership. -/
theorem mem_sortLe {le : Msg → Msg → Bool} {l : List Msg} {x : Msg} :
    x ∈ sortLe le l ↔ x ∈ l := by
  induction l with
  | nil => simp [sortLe]
  | cons a l ih => simp [sortLe, mem_insertLe, ih]

/-- Sorting preserves the length. -/
theorem length_sortLe (le : Msg → Msg → Bool) (l : List Msg) :
    (sortLe le l).length = l.length := by
  induction l with
  | nil => rfl
  | cons a l ih => simp [sortLe, length_insertLe, ih]

/-- Positions handed out by withSeqFrom start at i and stay below i plus the
length; the first component is an element of the list. -/
theorem mem_withSeqFrom {l : List Msg} {m : Msg} {s i : Nat} :
    (m, s) ∈ withSeqFrom i l → m ∈ l ∧ i ≤ s ∧ s < i + l.length := by
  induction l generalizing i with
  | nil => intro h; cases h
  | cons a l ih =>
    intro h
    rcases List.mem_cons.mp h with h | h
    · have hm : m = a := congrArg Prod.fst h
      have hs : s = i := congrArg Prod.snd h
      subst hm
      subst hs
      refine ⟨List.mem_cons_self _ _, Nat.le_refl _, ?_⟩
      simp only [List.length_cons]
      omega
    · rcases ih h with ⟨hm, hi, hlt⟩
      refine ⟨List.mem_cons_of_mem a hm, by omega, ?_⟩
      simp only [List.length_cons]
      omega

/-- An element of groupSeq is an element of the underlying list. -/
theorem groupSeq_mem {l : List Msg} {m : Msg} {s : Nat} :
    (m, s) ∈ groupSeq l → m ∈ l := by
  intro h
  rcases List.mem_flatMap.mp h with ⟨k, _, hmem⟩
  have h1 := (mem_withSeqFrom hmem).1
  have h2 := mem_sortLe.mp h1
  exact (List.mem_filter.mp h2).1

/-- Sequence numbers of groupSeq run from 1 to the size of the element's
group. -/
theorem groupSeq_bounds {l : List Msg} {m : Msg} {s : Nat} :
    (m, s) ∈ groupSeq l →
      1 ≤ s ∧ s ≤ (l.filter (fun x => decide (kGrp x = kGrp m))).length := by
  intro h
  rcases List.mem_flatMap.mp h with ⟨k, _, hmem⟩
  rcases mem_withSeqFrom hmem with ⟨hm, hi, hlt⟩
  have h2 := mem_sortLe.mp hm
  have hk : kGrp m = k := by
    have := (List.mem_filter.mp h2).2
    simpa using this
  rw [length_sortLe] at hlt
  subst hk
  constructor
  · exact hi
  · omega

/-- Claim C1, counterexample to the claim as stated: on the synthetic chain
T1 (sequence 1), W1 corrects T1, W2 corrects W1, the correction-fixpoint
step does not leave one surviving row bearing T1's identity key and W2's
payload -- it leaves nothing: invoked with the chain pending, it raises
ValueError on the duplicated orig_msg_seq_nb label at its first merge, and
the full call has already raised the same ValueError on msg_seq_nb at the
line-1379 merge before the pre-cutover branch starts. -/
theorem c1_counterexample :
    w1ex.orig_msg_seq_nb = some t1ex.msg_seq_nb ∧
      w2ex.orig_msg_seq_nb = some w1ex.msg_seq_nb ∧
      correctionLoopE [t1ex] [w1ex, w2ex]
        = Except.error (PdError.valueError "orig_msg_seq_nb") ∧
      processTraceDataE [t1ex, w1ex, w2ex]
        = Except.error (PdError.valueError "msg_seq_nb") :=
  ⟨rfl, rfl, rfl, rfl⟩

/-- Claim C1, amended: on every pre-cutover input containing the chain T1,
W1 corrects T1, W2 corrects W1, no surviving row is produced at all: the
line-1431 rename leaves orig_msg_seq_nb duplicated (label count two), so
the correction-fixpoint step raises ValueError at its first merge whenever
any corrections are pending, and the full call already raises ValueError at
the line-1379 merge before the step is reached. -/
theorem c1_chain_raises (act : List Msg) (w1 w2 : Msg) (t0 : List Msg) :
    (renameCols "msg_seq_nb" "orig_msg_seq_nb" requiredColumns).count "orig_msg_seq_nb" = 2 ∧
      correctionLoopE act [w1, w2] = Except.error (PdError.valueError "orig_msg_seq_nb") ∧
      processTraceDataE t0 = Except.error (PdError.valueError "msg_seq_nb") :=
  ⟨rfl, rfl, rfl⟩

/-- Claim C2, counterexample to the claim as stated: the claim quantifies
over every pre-cutover surviving set, but on a set with no reversal-flagged
message the groupby-apply never creates the seq column and the
reversal-removal step raises KeyError instead of letting the non-reversal
message survive. -/
theorem c2_counterexample :
    baseMsg.asof_cd = none ∧
      reversalStepE [baseMsg] = Except.error (PdError.keyError "seq") :=
  ⟨rfl, rfl⟩

/-- Claim C2, amended: provided the surviving set holds at least one
reversal-flagged and at least one retained non-reversal message, the
reversal-removal step groups by kGrp, numbers the reversal subset and the
non-reversal subset 1..n within each group in seqLe order, and a message
survives exactly when it is non-reversal (asof_cd missing or outside R, X,
D) and no reversal of its group carries the same sequence position; every
reversal-flagged message is removed, and the sequence numbers run from 1 to
the size of the message's group within the respective subset.  When either
subset is empty the step instead raises KeyError on the missing seq
column. -/
theorem c2_reversal_step (t : List Msg) (m : Msg) :
    (t.filter isRev ≠ [] → t.filter keepNonRev ≠ [] →
      reversalStepE t = Except.ok (reversalStep t)) ∧
    (t.filter isRev = [] ∨ t.filter keepNonRev = [] →
      reversalStepE t = Except.error (PdError.keyError "seq")) ∧
    (m ∈ reversalStep t ↔
      ∃ p ∈ nonRevSeq t, p.1 = m ∧
        ∀ q ∈ revSeq t, ¬(kGrp q.1 = kGrp m ∧ q.2 = p.2)) ∧
    (∀ s : Nat, (m, s) ∈ nonRevSeq t →
      1 ≤ s ∧ s ≤ ((t.filter keepNonRev).filter (fun x => decide (kGrp x = kGrp m))).length) ∧
    (∀ s : Nat, (m, s) ∈ revSeq t →
      1 ≤ s ∧ s ≤ ((t.filter isRev).filter (fun x => decide (kGrp x = kGrp m))).length) ∧
    (m ∈ reversalStep t → keepNonRev m = true) := by
  have hchar : m ∈ reversalStep t ↔
      ∃ p ∈ nonRevSeq t, p.1 = m ∧
        ∀ q ∈ revSeq t, ¬(kGrp q.1 = kGrp m ∧ q.2 = p.2) := by
    constructor
    · intro h
      rcases List.mem_map.mp h with ⟨p, hp, hpm⟩
      have hfil := List.mem_filter.mp hp
      refine ⟨p, hfil.1, hpm, ?_⟩
      intro q hq hcontra
      have hany := hfil.2
      rw [Bool.not_eq_true', List.any_eq_false] at hany
      exact (hany q hq) (by simp [hpm, hcontra.1, hcontra.2])
    · intro h
      rcases h with ⟨p, hp, hpm, hall⟩
      apply List.mem_map.mpr
      refine ⟨p, List.mem_filter.mpr ⟨hp, ?_⟩, hpm⟩
      rw [Bool.not_eq_true', List.any_eq_false]
      intro q hq hq2
      rw [Bool.and_eq_true, decide_eq_true_eq, decide_eq_true_eq] at hq2
      exact hall q hq ⟨by rw [hq2.1, hpm], hq2.2⟩
  refine ⟨?_, ?_, hchar, fun s hs => groupSeq_bounds hs, fun s hs => groupSeq_bounds hs, ?_⟩
  · intro h1 h2
    have e1 : (t.filter isRev).isEmpty = false := by
      cases hh : (t.filter isRev).isEmpty
      · rfl
      · exact absurd (List.isEmpty_iff.mp hh) h1
    have e2 : (t.filter keepNonRev).isEmpty = false := by
      cases hh : (t.filter keepNonRev).isEmpty
      · rfl
      · exact absurd (List.isEmpty_iff.mp hh) h2
    simp [reversalStepE, e1, e2]
  · intro h
    rcases h with h | h <;> simp [reversalStepE, h]
  · intro h
    rcases hchar.mp h with ⟨p, hp, hpm, _⟩
    have h2 : p.1 ∈ t.filter keepNonRev := groupSeq_mem hp
    rw [hpm] at h2
    exact (List.mem_filter.mp h2).2

/-- Witness for c2_reversal_step: the three-message scenario with one
reversal and two non-reversals is in the executing mode of the step. -/
theorem c2_witness :
    reversalStepE [baseMsg, m2ex, revEx]
      = Except.ok (reversalStep [baseMsg, m2ex, revEx]) :=
  (c2_reversal_step [baseMsg, m2ex, revEx] baseMsg).1 (by decide) (by decide)

/-- Claim C3, counterexample to the claim as stated: preCancelEx is a
pre-cutover Cancel back-referencing baseMsg's msg_seq_nb, but the
pre-cutover branch performs no cancellation anti-join at all: its merge
raises ValueError on the msg_seq_nb label duplicated by the line-1406
rename, and the full call raises the same ValueError at the line-1379
merge; so cancellation removal is not a complete anti-join in both
branches. -/
theorem c3_counterexample :
    preCancelEx.trc_st = "C" ∧ isPre (convertRow preCancelEx) = true ∧
      preCancelEx.orig_msg_seq_nb = some baseMsg.msg_seq_nb ∧
      preCancelE [baseMsg, preCancelEx] = Except.error (PdError.valueError "msg_seq_nb") ∧
      processTraceDataE [baseMsg, preCancelEx]
        = Except.error (PdError.valueError "msg_seq_nb") :=
  ⟨rfl, rfl, rfl, rfl, rfl⟩

/-- Claim C3, amended: cancellation removal is a complete anti-join only in
the post-cutover branch, whose merge (lines 1358-1368) executes: no row
surviving it carries the economic key of any post-cutover Cancel or
Correction-Cancel message.  The pre-cutover branch never performs its
anti-join: the line-1406 rename leaves msg_seq_nb duplicated (label count
two) and the merge raises ValueError on every input, and the full call
already raises ValueError at the line-1379 merge, so no cleaned output
exists at all. -/
theorem c3_branch_cancel_complete :
    (∀ (t : List Msg) (x m : Msg), x ∈ tracePostXC t → m ∈ tracePostTRclean t →
        keconPost m ≠ keconPost x) ∧
      (renameCols "orig_msg_seq_nb" "msg_seq_nb" requiredColumns).count "msg_seq_nb" = 2 ∧
      (∀ t : List Msg, preCancelE t = Except.error (PdError.valueError "msg_seq_nb")) ∧
      (∀ t0 : List Msg, processTraceDataE t0 = Except.error (PdError.valueError "msg_seq_nb")) := by
  refine ⟨?_, rfl, fun _ => rfl, fun _ => rfl⟩
  intro t x m hx hm heq
  have hfil := (List.mem_filter.mp hm).2
  rw [Bool.not_eq_true', List.any_eq_false] at hfil
  exact (hfil x hx) (by simp [heq])

/-- Witness for c3_branch_cancel_complete at a concrete post-cutover table. -/
theorem c3_witness : keconPost postTradeEx ≠ keconPost xPostEx :=
  c3_branch_cancel_complete.1 [postTradeEx, xPostEx] xPostEx postTradeEx
    (by decide) (by decide)

/-- Claim C4: the agency-resolution step raises TypeError on every input --
line 1538 hands pd.concat a DataFrame as objs -- shown both on an arbitrary
table and on the matched sell/buy round-trip the claim describes; the
three-group union is never produced. -/
theorem c4_agency_concat_raises (l : List Msg) :
    agencyStepE l
        = Except.error (PdError.typeError "cannot concatenate object of type DataFrame") ∧
      agencyStepE [agSellEx, agBuyEx]
        = Except.error (PdError.typeError "cannot concatenate object of type DataFrame") :=
  ⟨rfl, rfl⟩

/-- Claim C5: evaluation of the settlement filter at the failing input.
lag2Ex settles two calendar days after execution, so the claim (a date
difference of at most 7, understood in days) retains it, but the code's
astype(float) comparison of line 1552 counts nanoseconds and excludes it.
The days_to_sttl_ct boundary behaviour the claim lists does hold: 8 is
excluded, 7 is retained, and a row with both settlement fields missing is
retained. -/
theorem c5_lag_nanoseconds :
    settlementLagDays lag2Ex = some 2 ∧
      settleRetain lag2Ex = false ∧
      settlementFilter [lag2Ex] = [] ∧
      settlementFilter [sttl7Ex] = [sttl7Ex] ∧
      settlementFilter [sttl8Ex] = [] ∧
      settlementFilter [baseMsg] = [baseMsg] := by decide

/-- Claim C6: evaluation of the correction loop at the failing input.  With
the orphaned correction pending, the first iteration raises ValueError on
the orig_msg_seq_nb label, which the line-1431 rename leaves duplicated
(label count two); only an empty pending set avoids the body and returns
the active set unchanged.  The claimed iteration bound and orphan discard
never operate. -/
theorem c6_loop_first_iteration_raises :
    (renameCols "msg_seq_nb" "orig_msg_seq_nb" requiredColumns).count "orig_msg_seq_nb" = 2 ∧
      correctionLoopE [baseMsg] [wOrphEx]
        = Except.error (PdError.valueError "orig_msg_seq_nb") ∧
      correctionLoopE [baseMsg] [] = Except.ok ([baseMsg], []) :=
  ⟨rfl, rfl, rfl⟩

/-- Claim C7, counterexample to the claim as stated: re-running clean on a
table carrying exactly the output columns does not return that table; the
first column access of process_trace_data (trd_rpt_dt, line 1347) fails,
because the output projection keeps only eight of the eighteen columns the
function reads. -/
theorem c7_counterexample :
    processTraceSchema outputColumns ≠ Except.ok outputColumns := by
  intro h
  exact Except.noConfusion
    (show (Except.error "trd_rpt_dt" : Except String (List String))
        = Except.ok outputColumns from h)

/-- Claim C7, amended: running clean on its own output always raises a
missing-column error, the first missing column being trd_rpt_dt. -/
theorem c7_rerun_schema_error :
    processTraceSchema outputColumns = Except.error "trd_rpt_dt" := rfl

/-- Claim C8, counterexample to the claim as stated: on the input with one
trade and one unresolvable pending correction, the call raises ValueError
on a duplicated merge-key label at line 1379 -- not a DataIntegrityError
carrying unresolved message identifiers; no DataIntegrityError and no raise
statement exist anywhere in process_trace_data. -/
theorem c8_counterexample :
    wOrphEx.trc_st = "W" ∧ wOrphEx.orig_msg_seq_nb = some 99 ∧
      processTraceDataE [baseMsg, wOrphEx]
        = Except.error (PdError.valueError "msg_seq_nb") :=
  ⟨rfl, rfl, rfl⟩

/-- Claim C8, amended: the code defines no DataIntegrityError and never
reaches a non-convergence check: with an empty pending set the loop is
skipped and the active set passes through; with any pending corrections the
loop's first merge raises ValueError on the duplicated orig_msg_seq_nb
label; and the full call raises ValueError at the line-1379 merge before
the loop on every input, so no unresolved-identifier list is ever
surfaced. -/
theorem c8_no_integrity_error (act : List Msg) (w : Msg) (ws : List Msg) (t0 : List Msg) :
    correctionLoopE act [] = Except.ok (act, []) ∧
      correctionLoopE act (w :: ws) = Except.error (PdError.valueError "orig_msg_seq_nb") ∧
      processTraceDataE t0 = Except.error (PdError.valueError "msg_seq_nb") :=
  ⟨rfl, rfl, rfl⟩

/-- A row whose trd_rpt_dt is already parsed is unchanged by the to_datetime
conversion. -/
theorem convertRow_of_dt {m : Msg} {n : Nat} (h : m.trd_rpt_dt = DateCell.dt n) :
    convertRow m = m := by
  have h2 : toDatetimeCell m.trd_rpt_dt = m.trd_rpt_dt := by
    rw [h]
    rfl
  cases m
  simp_all [convertRow]

/-- Claim C9, counterexample to the claim as stated: on an input whose
trd_rpt_dt column holds raw feed text, the input table after the call
differs from the input before the call: line 1347 overwrites the column
with its datetime conversion in place. -/
theorem c9_counterexample : mutatedInput [rawMsgEx] ≠ [rawMsgEx] := by decide

/-- Claim C9, amended: the pipeline mutates its input only through the
to_datetime conversion of trd_rpt_dt; an input whose trd_rpt_dt is already
datetime is left fully unchanged. -/
theorem c9_mutation_only_rpt_dt (t : List Msg)
    (h : ∀ m ∈ t, ∃ n, m.trd_rpt_dt = DateCell.dt n) :
    mutatedInput t = t := by
  induction t with
  | nil => rfl
  | cons a l ih =>
    rcases h a (List.mem_cons_self _ _) with ⟨n, hn⟩
    have hrest := ih fun m hm => h m (List.mem_cons_of_mem _ hm)
    simp only [mutatedInput, List.map_cons] at *
    rw [convertRow_of_dt hn, hrest]

/-- Witness for c9_mutation_only_rpt_dt on an already-converted input. -/
theorem c9_witness : mutatedInput [baseMsg] = [baseMsg] :=
  c9_mutation_only_rpt_dt [baseMsg] (by
    intro m hm
    rw [List.mem_singleton] at hm
    subst hm
    exact ⟨20120103, rfl⟩)

/-- Claim C10: a table with exactly the ten query columns of
download_data_wrds_trace_enhanced makes process_trace_data fail on a
missing column (first trd_rpt_dt); each of the eight columns the claim
lists is read by process_trace_data and absent from the query, so the
downloader can never return successfully. -/
theorem c10_query_schema_mismatch :
    processTraceSchema queryColumns = Except.error "trd_rpt_dt" ∧
      (["trd_rpt_dt", "msg_seq_nb", "orig_msg_seq_nb", "trd_rpt_tm", "stlmnt_dt",
          "days_to_sttl_ct", "wis_fl", "spcl_trd_fl"].all
        (fun c => requiredColumns.contains c && !(queryColumns.contains c)) = true) :=
  ⟨rfl, rfl⟩

end TraceClean
